import Mathlib

/-!
Verification development for the `@wymp/ts-types` repository.

The repository is a pure type-definition package: `src/Auth.ts` declares the
data model of an accounts/authentication system (request authorization info,
users, clients, sessions, verification codes, session tokens) together with a
map from API endpoints to their response shapes, and `src/Api.ts` declares the
generic response envelopes.

Part 1 embeds the *declared type shapes* as values of a small AST `Ty`, copied
field by field from the TypeScript source, so that shape-level statements
(which fields exist, which are optional, which admit `null`, which literal
values a discriminant union allows) become decidable computations.

Part 2 gives executable models of the record types the behavioral claims are
about, and models the operations themselves (which exist in no source file of
this repository — the package ships types only) from the specification text;
each such definition is marked `Modelled from the spec:`.
-/

/-- AST of the TypeScript type shapes used by `src/Api.ts` and `src/Auth.ts`.
An object field is `(name, optional?, type)`; `lit`/`numLit` are literal
types; `buffer` stands for the opaque `BufferLike` of `src/Misc.ts`;
`unknownT` is TypeScript's `unknown`. -/
inductive Ty where
  | str : Ty
  | num : Ty
  | boolean : Ty
  | nullT : Ty
  | unknownT : Ty
  | buffer : Ty
  | lit : String → Ty
  | numLit : Nat → Ty
  | arr : Ty → Ty
  | obj : List (String × Bool × Ty) → Ty
  | union : List Ty → Ty

mutual

/-- Does a field with the given name occur anywhere inside the shape? -/
def hasField (name : String) : Ty → Bool
  | .arr t => hasField name t
  | .obj fs => hasFieldF name fs
  | .union ts => hasFieldL name ts
  | _ => false

def hasFieldF (name : String) : List (String × Bool × Ty) → Bool
  | [] => false
  | (n, _, t) :: rest => n == name || hasField name t || hasFieldF name rest

def hasFieldL (name : String) : List Ty → Bool
  | [] => false
  | t :: rest => hasField name t || hasFieldL name rest

end

/-- Top-level field lookup on an object shape: returns `(optional?, type)`. -/
def lookupField (name : String) (t : Ty) : Option (Bool × Ty) :=
  match t with
  | .obj fs => (fs.find? (fun f => f.1 == name)).map (fun f => f.2)
  | _ => none

mutual

/-- Does the shape admit the value `null`? -/
def admitsNull : Ty → Bool
  | .nullT => true
  | .union ts => admitsNullL ts
  | _ => false

def admitsNullL : List Ty → Bool
  | [] => false
  | t :: rest => admitsNull t || admitsNullL rest

end

mutual

/-- The string-literal alternatives of a shape (used for discriminant unions). -/
def unionLits : Ty → List String
  | .lit s => [s]
  | .union ts => unionLitsL ts
  | _ => []

def unionLitsL : List Ty → List String
  | [] => []
  | t :: rest => unionLits t ++ unionLitsL rest

end

/-- TypeScript intersection of an object type with extra fields, as used by
`Client<Roles> & { secret: string }` in the source. -/
def objExtend (t : Ty) (fs : List (String × Bool × Ty)) : Ty :=
  match t with
  | .obj gs => .obj (gs ++ fs)
  | _ => t

/-- `Api.NextPageParams` from `src/Api.ts`. -/
def NextPageParamsTy : Ty := .obj [
  ("size", false, .num),
  ("nextCursor", false, .union [.str, .nullT]),
  ("prevCursor", false, .union [.str, .nullT]),
  ("sort", true, .union [.str, .nullT])]

/-- `Api.CollectionResponse<Resource, Included>` from `src/Api.ts`
(`Meta` left at its default `unknown`, so `meta` is just `{ pg }`). -/
def CollectionResponseTy (res incl : Ty) : Ty := .obj [
  ("t", false, .lit "collection"),
  ("data", false, .arr res),
  ("included", true, .arr incl),
  ("meta", false, .obj [("pg", false, NextPageParamsTy)])]

/-- `Api.SingleResponse<Resource, Included>` from `src/Api.ts`. -/
def SingleResponseTy (res incl : Ty) : Ty := .obj [
  ("t", false, .lit "single"),
  ("data", false, res),
  ("included", true, .arr incl),
  ("meta", true, .unknownT)]

/-- `Auth.ReqInfoString`'s `u` sub-object (`src/Auth.ts`). -/
def ReqInfoStringUserTy : Ty := .obj [
  ("sid", false, .str),
  ("id", false, .str),
  ("r", false, .arr .str),
  ("s", true, .union [.arr .str, .nullT])]

/-- `Auth.ReqInfoString` (`src/Auth.ts`): the `t: 0` / string-set variant. -/
def ReqInfoStringTy : Ty := .obj [
  ("t", false, .numLit 0),
  ("c", false, .str),
  ("a", false, .boolean),
  ("r", false, .arr .str),
  ("ip", false, .str),
  ("d", true, .boolean),
  ("u", true, ReqInfoStringUserTy)]

/-- `Auth.ReqInfoBitwise`'s `u` sub-object (`src/Auth.ts`); note the source
writes `u?: null | { ... }` here. -/
def ReqInfoBitwiseUserTy : Ty := .obj [
  ("sid", false, .str),
  ("id", false, .str),
  ("r", false, .num),
  ("s", true, .union [.num, .nullT])]

/-- `Auth.ReqInfoBitwise` (`src/Auth.ts`): the `t: 1` / bitmask variant. -/
def ReqInfoBitwiseTy : Ty := .obj [
  ("t", false, .numLit 1),
  ("c", false, .str),
  ("a", false, .boolean),
  ("r", false, .num),
  ("ip", false, .str),
  ("d", true, .boolean),
  ("u", true, .union [.nullT, ReqInfoBitwiseUserTy])]

/-- `Auth.Api.Api` (`src/Auth.ts`): `ApiAttributes & { id; type: "apis"; active }`. -/
def ApiResTy : Ty := .obj [
  ("domain", false, .str),
  ("version", false, .str),
  ("url", false, .str),
  ("id", false, .str),
  ("type", false, .lit "apis"),
  ("active", false, .boolean)]

/-- `Auth.Api.Organization` (`src/Auth.ts`). -/
def OrganizationTy : Ty := .obj [
  ("id", false, .str),
  ("type", false, .lit "organizations"),
  ("name", false, .str),
  ("createdMs", false, .num)]

/-- `Auth.Api.Client<Roles>` (`src/Auth.ts`), `Roles` instantiated at `string`. -/
def ClientTy : Ty := .obj [
  ("name", false, .str),
  ("reqsPerSec", false, .num),
  ("roles", false, .arr .str),
  ("createdMs", false, .num),
  ("id", false, .str),
  ("type", false, .lit "clients"),
  ("organization", false, .obj [
    ("data", false, .obj [("type", false, .lit "organizations"), ("id", false, .str)])])]

/-- `Auth.Api.ClientRole<Roles>` (`src/Auth.ts`). -/
def ClientRoleTy : Ty := .obj [
  ("id", false, .str),
  ("type", false, .lit "client-roles")]

/-- `Auth.Api.ClientAccessRestriction` (`src/Auth.ts`). -/
def ClientAccessRestrictionTy : Ty := .obj [
  ("value", false, .str),
  ("createdMs", false, .num),
  ("id", false, .str),
  ("type", false, .union [
    .lit "ip-access-restrictions",
    .lit "host-access-restrictions",
    .lit "api-access-restrictions"]),
  ("client", false, .obj [
    ("data", false, .obj [("type", false, .lit "clients"), ("id", false, .str)])])]

/-- `Auth.Api.User<Roles>` (`src/Auth.ts`): `UserAttributes<Roles> & { ... }`. -/
def UserTy : Ty := .obj [
  ("name", false, .str),
  ("roles", false, .arr .str),
  ("createdMs", false, .num),
  ("bannedMs", false, .num),
  ("deletedMs", false, .num),
  ("id", false, .str),
  ("type", false, .lit "users"),
  ("2fa", false, .boolean),
  ("emails", false, .obj [
    ("data", false, .union [.nullT, .arr (.obj [
      ("type", false, .lit "emails"), ("id", false, .str)])])])]

/-- `Auth.Api.UserRole<Roles>` (`src/Auth.ts`). -/
def UserRoleTy : Ty := .obj [
  ("id", false, .str),
  ("type", false, .lit "user-roles")]

/-- `Auth.Api.PostUser` (`src/Auth.ts`). -/
def PostUserTy : Ty := .obj [
  ("name", false, .str),
  ("email", false, .str),
  ("password", true, .str),
  ("passwordConf", true, .str)]

/-- `Auth.Api.Email` (`src/Auth.ts`): `EmailAttributes & { id; type: "emails" }`. -/
def EmailTy : Ty := .obj [
  ("verifiedMs", false, .union [.num, .nullT]),
  ("createdMs", false, .num),
  ("id", false, .str),
  ("type", false, .lit "emails")]

/-- `Auth.Api.Session` (`src/Auth.ts`): `{ id } & SessionAttributes`. -/
def SessionResTy : Ty := .obj [
  ("id", false, .str),
  ("userAgent", false, .union [.str, .nullT]),
  ("ip", false, .str),
  ("invalidatedMs", false, .union [.num, .nullT]),
  ("createdMs", false, .num),
  ("expiresMs", false, .num)]

/-- `Auth.Api.OrgMembership` (`src/Auth.ts`). -/
def OrgMembershipTy : Ty := .obj [
  ("id", false, .str),
  ("type", false, .lit "org-memberships"),
  ("user", false, .obj [
    ("data", false, .obj [("type", false, .lit "users"), ("id", false, .str)])]),
  ("organization", false, .obj [
    ("data", false, .obj [("type", false, .lit "organizations"), ("id", false, .str)])]),
  ("read", false, .boolean),
  ("edit", false, .boolean),
  ("manage", false, .boolean),
  ("delete", false, .boolean)]

/-- `Auth.Api.Authn.StepResponse` (`src/Auth.ts`): `step` ranges over the
`Authn.Types` enum values. -/
def AuthnStepResponseTy : Ty := .obj [
  ("t", false, .lit "step"),
  ("step", false, .union [.lit "email", .lit "password", .lit "code", .lit "totp"]),
  ("code", false, .str),
  ("state", false, .str)]

/-- `Auth.Api.Authn.Session` (`src/Auth.ts`). -/
def AuthnSessionTy : Ty := .obj [
  ("t", false, .lit "session"),
  ("token", false, .str),
  ("refresh", false, .str)]

/-- `Auth.Api.Resource<ClientRoles, UserRoles>` (`src/Auth.ts`), role
parameters instantiated at `string`. -/
def ResourceTy : Ty := .union [
  ApiResTy,
  AuthnStepResponseTy,
  AuthnSessionTy,
  ClientTy,
  ClientAccessRestrictionTy,
  EmailTy,
  OrganizationTy,
  OrgMembershipTy,
  PostUserTy,
  SessionResTy,
  UserTy]

/-- `Auth.Api.Responses<ClientRoles, UserRoles>` (`src/Auth.ts`), as an
association list from endpoint key to declared response shape, entry by entry
in source order. -/
def responses : List (String × Ty) := [
  ("GET /organizations", CollectionResponseTy OrganizationTy ResourceTy),
  ("GET /organizations/:id", SingleResponseTy OrganizationTy ResourceTy),
  ("POST /organizations", SingleResponseTy OrganizationTy ResourceTy),
  ("GET /sessions", CollectionResponseTy SessionResTy ResourceTy),
  ("POST /sessions/login/email", .obj [("data", false, .nullT)]),
  ("POST /sessions/login/password", .obj [("data", false, .union [AuthnStepResponseTy, AuthnSessionTy])]),
  ("POST /sessions/login/code", .obj [("data", false, .union [AuthnStepResponseTy, AuthnSessionTy])]),
  ("POST /sessions/login/totp", .obj [("data", false, .union [AuthnStepResponseTy, AuthnSessionTy])]),
  ("POST /sessions/refresh", .obj [("data", false, AuthnSessionTy)]),
  ("POST /sessions/invalidate", .obj [("data", false, .nullT)]),
  ("GET /users", CollectionResponseTy UserTy ResourceTy),
  ("GET /users/:id", SingleResponseTy UserTy ResourceTy),
  ("POST /users", .obj [("data", false, AuthnSessionTy)]),
  ("PATCH /users/:id", SingleResponseTy UserTy ResourceTy),
  ("DELETE /users/:id", .obj [("data", false, .nullT)]),
  ("GET /users/:id/roles", CollectionResponseTy UserRoleTy .unknownT),
  ("POST /users/:id/roles", CollectionResponseTy UserRoleTy .unknownT),
  ("DELETE /users/:id/roles/:id", .obj [("data", false, .nullT)]),
  ("GET /users/:id/emails", CollectionResponseTy EmailTy ResourceTy),
  ("POST /users/:id/emails", SingleResponseTy EmailTy ResourceTy),
  ("DELETE /users/:id/emails/:id", .obj [("data", false, .nullT)]),
  ("POST /users/:id/emails/:id/generate-verification", .obj [("data", false, .nullT)]),
  ("POST /users/:id/emails/:id/verify", SingleResponseTy EmailTy ResourceTy),
  ("GET /organizations/:id/clients", CollectionResponseTy ClientTy ResourceTy),
  ("POST /organizations/:id/clients", SingleResponseTy (objExtend ClientTy [("secret", false, .str)]) ResourceTy),
  ("GET /organizations/:id/clients/:id", SingleResponseTy ClientTy ResourceTy),
  ("PATCH /organizations/:id/clients/:id", SingleResponseTy ClientTy ResourceTy),
  ("DELETE /organizations/:id/clients/:id", .obj [("data", false, .nullT)]),
  ("POST /organizations/:id/clients/:id/refresh-secret", SingleResponseTy (objExtend ClientTy [("secret", false, .str)]) ResourceTy),
  ("GET /organizations/:id/clients/:id/roles", CollectionResponseTy ClientRoleTy .unknownT),
  ("POST /organizations/:id/clients/:id/roles", CollectionResponseTy ClientRoleTy .unknownT),
  ("DELETE /organizations/:id/clients/:id/roles/:id", .obj [("data", false, .nullT)]),
  ("GET /organizations/:id/clients/:id/access-restrictions", CollectionResponseTy ClientAccessRestrictionTy .unknownT),
  ("POST /organizations/:id/clients/:id/access-restrictions", SingleResponseTy ClientAccessRestrictionTy .unknownT),
  ("DELETE /organizations/:id/clients/:id/access-restrictions/:id", .obj [("data", false, .nullT)]),
  ("GET /users/:id/memberships", CollectionResponseTy OrgMembershipTy ResourceTy),
  ("GET /organizations/:id/memberships", CollectionResponseTy OrgMembershipTy ResourceTy),
  ("POST /organizations/:id/memberships", CollectionResponseTy OrgMembershipTy ResourceTy),
  ("DELETE /org-memberships/:id", .obj [("data", false, .nullT)]),
  ("PATCH /org-memberships/:id", SingleResponseTy OrgMembershipTy ResourceTy)]

/-- Look up the declared response shape of an endpoint. -/
def lookupResponse (e : String) : Option Ty :=
  (responses.find? (fun p => p.1 == e)).map (fun p => p.2)

/-- `Auth.Db.SessionToken` (`src/Auth.ts`). -/
def DbSessionTokenTy : Ty := .obj [
  ("type", false, .union [.lit "session", .lit "refresh"]),
  ("tokenSha256", false, .buffer),
  ("sessionId", false, .str),
  ("createdMs", false, .num),
  ("expiresMs", false, .num),
  ("consumedMs", false, .union [.num, .nullT]),
  ("invalidatedMs", false, .union [.num, .nullT])]

/-- `Auth.Db.User` (`src/Auth.ts`): `Omit<UserAttributes<string>, "roles"> &
{ id; passwordBcrypt: string | null; "2fa": 0 | 1 }`. -/
def DbUserTy : Ty := .obj [
  ("name", false, .str),
  ("createdMs", false, .num),
  ("bannedMs", false, .num),
  ("deletedMs", false, .num),
  ("id", false, .str),
  ("passwordBcrypt", false, .union [.str, .nullT]),
  ("2fa", false, .union [.numLit 0, .numLit 1])]

/-- `Auth.Db.VerificationCode = Auth.VerificationCodeAttributes` (`src/Auth.ts`). -/
def DbVerificationCodeTy : Ty := .obj [
  ("codeSha256", false, .buffer),
  ("type", false, .union [.lit "login", .lit "verification"]),
  ("email", false, .str),
  ("userGeneratedToken", false, .union [.str, .nullT]),
  ("createdMs", false, .num),
  ("expiresMs", false, .num),
  ("consumedMs", false, .union [.num, .nullT]),
  ("invalidatedMs", false, .union [.num, .nullT])]

/-!
Part 2: executable models.

The request-info union and the database records below are translated from
`src/Auth.ts`; TypeScript's optional/nullable fields become `Option`, the
opaque `BufferLike` hash fields become `Nat`, and the `0 | 1` flags become
`Bool`. The *operations* (role comparison, verification-code consumption,
authentication, token rotation) exist in no source file of this package, so
they are modelled from the specification text, as marked.
-/

/-- The two role/scope encodings distinguished by the `t` discriminant of
`Auth.ReqInfo` (`t = 0` means arrays of strings, `t = 1` bitwise numbers). -/
inductive Encoding where
  | stringSet
  | bitmask
deriving DecidableEq

/-- The `u` sub-object of `Auth.ReqInfoString` (`src/Auth.ts`). -/
structure UserInfoString where
  sid : String
  id : String
  r : List String
  s : Option (Option (List String))
deriving DecidableEq

/-- The `u` sub-object of `Auth.ReqInfoBitwise` (`src/Auth.ts`). -/
structure UserInfoBitwise where
  sid : String
  id : String
  r : Nat
  s : Option (Option Nat)
deriving DecidableEq

/-- `Auth.ReqInfo = ReqInfoString | ReqInfoBitwise` (`src/Auth.ts`). In the
bitwise variant the source declares `u?: null | { ... }`, hence the doubled
`Option` there. -/
inductive ReqInfo where
  | strings (c : String) (a : Bool) (r : List String) (ip : String) (d : Option Bool)
      (u : Option UserInfoString)
  | bitwise (c : String) (a : Bool) (r : Nat) (ip : String) (d : Option Bool)
      (u : Option (Option UserInfoBitwise))
deriving DecidableEq

/-- The `t` discriminant of a `ReqInfo` value. -/
def ReqInfo.t : ReqInfo → Nat
  | .strings .. => 0
  | .bitwise .. => 1

/-- The role encoding of a `ReqInfo` value. -/
def ReqInfo.enc : ReqInfo → Encoding
  | .strings .. => .stringSet
  | .bitwise .. => .bitmask

/-- The encodings of every role/scope field actually present in a `ReqInfo`
value: the client roles `r`, then the user roles `u.r` when `u` is present,
then the scopes `u.s` when present and non-null. -/
def ReqInfo.roleEncodings : ReqInfo → List Encoding
  | .strings _ _ _ _ _ u =>
    Encoding.stringSet ::
      (match u with
       | none => []
       | some ui =>
         Encoding.stringSet ::
           (match ui.s with
            | some (some _) => [Encoding.stringSet]
            | _ => []))
  | .bitwise _ _ _ _ _ u =>
    Encoding.bitmask ::
      (match u with
       | some (some ui) =>
         Encoding.bitmask ::
           (match ui.s with
            | some (some _) => [Encoding.bitmask]
            | _ => [])
       | _ => [])

/-- A role argument for the role-comparison operations: either a role name
(string-set world) or a power-of-two flag (bitmask world). -/
inductive RoleArg where
  | rname (s : String)
  | rflag (m : Nat)
deriving DecidableEq

/-- The encoding a role argument belongs to. -/
def RoleArg.enc : RoleArg → Encoding
  | .rname _ => .stringSet
  | .rflag _ => .bitmask

/-- Error raised on a cross-encoding role comparison. -/
inductive RoleErr where
  | EncodingMismatch
deriving DecidableEq

/-- Modelled from the spec: §4.1 Role/Scope Encoding — the package declares
only the `ReqInfo` data; `hasRole` is the spec's membership test, dispatching
on the discriminant: set containment in string-set mode, bitwise AND in
bitmask mode, and `EncodingMismatch` on any cross-variant comparison. -/
def hasRole : ReqInfo → RoleArg → Except RoleErr Bool
  | .strings _ _ r _ _ _, .rname s => .ok (r.contains s)
  | .bitwise _ _ r _ _ _, .rflag m => .ok ((r &&& m) != 0)
  | _, _ => .error .EncodingMismatch

/-- Modelled from the spec: §4.1 — `hasAnyRole(ctx, roles)`; any
cross-encoding element fails the whole comparison. -/
def hasAnyRole (ctx : ReqInfo) : List RoleArg → Except RoleErr Bool
  | [] => .ok false
  | role :: rest =>
    match hasRole ctx role, hasAnyRole ctx rest with
    | .error e, _ => .error e
    | _, .error e => .error e
    | .ok b, .ok brest => .ok (b || brest)

/-- Modelled from the spec: §4.1 — `hasAllRoles(ctx, roles)`; any
cross-encoding element fails the whole comparison. -/
def hasAllRoles (ctx : ReqInfo) : List RoleArg → Except RoleErr Bool
  | [] => .ok true
  | role :: rest =>
    match hasRole ctx role, hasAllRoles ctx rest with
    | .error e, _ => .error e
    | _, .error e => .error e
    | .ok b, .ok brest => .ok (b && brest)

/-- The `type` enum of `Auth.VerificationCodeAttributes` (`src/Auth.ts`). -/
inductive CodeType where
  | login
  | verification
deriving DecidableEq

/-- `Auth.Db.VerificationCode = Auth.VerificationCodeAttributes`
(`src/Auth.ts`); the `codeSha256: BufferLike` hash is modelled as a `Nat`. -/
structure VerificationCode where
  codeSha256 : Nat
  type : CodeType
  email : String
  userGeneratedToken : Option String
  createdMs : Nat
  expiresMs : Nat
  consumedMs : Option Nat
  invalidatedMs : Option Nat
deriving DecidableEq

/-- Failure of `consumeVerificationCode` (spec §4.2: `ExpiredOrInvalid`). -/
inductive ConsumeErr where
  | ExpiredOrInvalid
deriving DecidableEq

/-- Modelled from the spec: §3 VerificationCode invariant — "a code is usable
iff `now < expiresAt AND consumedAt == null AND invalidatedAt == null`". -/
def usableCode (now : Nat) (c : VerificationCode) : Bool :=
  decide (now < c.expiresMs) && c.consumedMs.isNone && c.invalidatedMs.isNone

/-- Modelled from the spec: §4.2 `consumeVerificationCode` — the package only
declares the `VerificationCode` row; consumption is the spec's one-time atomic
transition to `consumedAt = now` of a usable code, failing otherwise. -/
def consumeVerificationCode (now : Nat) (c : VerificationCode) :
    Except ConsumeErr VerificationCode :=
  if usableCode now c then .ok { c with consumedMs := some now }
  else .error .ExpiredOrInvalid

/-- `Auth.Db.User` (`src/Auth.ts`): `Omit<UserAttributes<string>, "roles"> &
{ id; passwordBcrypt: string | null; "2fa": 0 | 1 }`; the `0 | 1` flag is
modelled as `Bool`. `bannedMs` and `deletedMs` are required `number`s in the
source, carried over as plain `Nat`s. -/
structure DbUser where
  name : String
  createdMs : Nat
  bannedMs : Nat
  deletedMs : Nat
  id : String
  passwordBcrypt : Option String
  twoFa : Bool
deriving DecidableEq

/-- Uniform authentication failure (spec §4.3/§7: banned or deleted users are
rejected with an error indistinguishable from "unknown user"). -/
inductive AuthnErr where
  | Unauthenticated
deriving DecidableEq

/-- Modelled from the spec: §4.2 `verifyUserPassword` — no implementation
ships with the package; the bcrypt comparison against the stored
`passwordBcrypt` hash is abstracted as equality, with a null hash (no
password set) never verifying. -/
def verifyUserPassword (u : DbUser) (candidate : String) : Bool :=
  match u.passwordBcrypt with
  | none => false
  | some h => h == candidate

/-- Modelled from the spec: §4.3 failure policy — "Banned or deleted users are
rejected at Step 1" with a uniform error, before any credential check. With
`bannedMs`/`deletedMs` declared as required numbers in `src/Auth.ts`, `0`
(the epoch) is read as "never banned/deleted". -/
def authenticate (u : DbUser) (candidate : String) : Except AuthnErr Unit :=
  if u.bannedMs ≠ 0 ∨ u.deletedMs ≠ 0 then .error .Unauthenticated
  else if verifyUserPassword u candidate then .ok ()
  else .error .Unauthenticated

/-- Modelled from the spec: §3 SessionToken `kind` — "`access` | `refresh`"
(the Db row of `src/Auth.ts` spells the discriminant `"session" | "refresh"`). -/
inductive TokenKind where
  | access
  | refresh
deriving DecidableEq

/-- Modelled from the spec: §3 SessionToken — one row per issued token; the
`tokenHash` identity is modelled as the `Nat` field `id`. -/
structure TokenRec where
  id : Nat
  kind : TokenKind
  sessionId : Nat
  createdMs : Nat
  expiresMs : Nat
  consumedMs : Option Nat
  invalidatedMs : Option Nat
deriving DecidableEq

/-- `Auth.Db.Session` (`src/Auth.ts`): `{ id; userId } & SessionAttributes`,
with ids as `Nat`s. -/
structure SessionRec where
  id : Nat
  userId : Nat
  userAgent : Option String
  ip : String
  invalidatedMs : Option Nat
  createdMs : Nat
  expiresMs : Nat
deriving DecidableEq

/-- Modelled from the spec: §4.4 — the persistent store behind the
session/token manager. -/
structure Store where
  sessions : List SessionRec
  tokens : List TokenRec
  nextId : Nat
deriving DecidableEq

/-- Errors of the session/token manager (spec §4.4/§7). -/
inductive TokenErr where
  | Invalid
  | Expired
  | Revoked
  | Reused
deriving DecidableEq

def findToken (s : Store) (tok : Nat) : Option TokenRec :=
  s.tokens.find? (fun x => x.id == tok)

def findSession (s : Store) (sid : Nat) : Option SessionRec :=
  s.sessions.find? (fun x => x.id == sid)

/-- Modelled from the spec: §4.4 `invalidateSession(sessionId)` — sets
`invalidatedAt` on the session. -/
def invalidateSession (s : Store) (sid : Nat) (now : Nat) : Store :=
  { s with sessions := s.sessions.map (fun x =>
      if x.id == sid then { x with invalidatedMs := some now } else x) }

/-- Marks the presented refresh token consumed (part of §4.4 rotation). -/
def markConsumed (ts : List TokenRec) (tok : Nat) (now : Nat) : List TokenRec :=
  ts.map (fun x => if x.id == tok then { x with consumedMs := some now } else x)

/-- Modelled from the spec: §4.4 `validateAccessToken(token)` — fails
`Invalid` on an unknown or non-access or individually-invalidated token,
`Revoked` when the parent session is invalidated (checked before expiry, per
the §4.4 ordering guarantee), `Expired` past either expiry; never reads
`consumedMs`. -/
def validateAccessToken (s : Store) (tok : Nat) (now : Nat) : Except TokenErr Nat :=
  match findToken s tok with
  | none => .error .Invalid
  | some t =>
    if t.kind ≠ TokenKind.access then .error .Invalid
    else
      match findSession s t.sessionId with
      | none => .error .Invalid
      | some sess =>
        if sess.invalidatedMs ≠ none then .error .Revoked
        else if t.invalidatedMs ≠ none then .error .Invalid
        else if t.expiresMs ≤ now ∨ sess.expiresMs ≤ now then .error .Expired
        else .ok sess.userId

/-- Modelled from the spec: §4.4 `refresh(refreshToken)` — rotation is one
atomic step: a consumed token presented again is token reuse, which
invalidates the whole parent session and fails `Reused`; an unconsumed, live
token is marked consumed and a fresh access/refresh pair is issued in the
same step. -/
def refresh (s : Store) (tok : Nat) (now aTtl rTtl : Nat) :
    Store × Except TokenErr (Nat × Nat) :=
  match findToken s tok with
  | none => (s, .error .Invalid)
  | some t =>
    if t.kind ≠ TokenKind.refresh then (s, .error .Invalid)
    else if t.consumedMs ≠ none then (invalidateSession s t.sessionId now, .error .Reused)
    else if t.invalidatedMs ≠ none then (s, .error .Invalid)
    else if t.expiresMs ≤ now then (s, .error .Expired)
    else
      match findSession s t.sessionId with
      | none => (s, .error .Invalid)
      | some sess =>
        if sess.invalidatedMs ≠ none then (s, .error .Revoked)
        else
          ({ sessions := s.sessions,
             tokens :=
               { id := s.nextId, kind := TokenKind.access, sessionId := t.sessionId,
                 createdMs := now, expiresMs := now + aTtl,
                 consumedMs := none, invalidatedMs := none } ::
               { id := s.nextId + 1, kind := TokenKind.refresh, sessionId := t.sessionId,
                 createdMs := now, expiresMs := now + rTtl,
                 consumedMs := none, invalidatedMs := none } ::
               markConsumed s.tokens tok now,
             nextId := s.nextId + 2 },
           .ok (s.nextId, s.nextId + 1))

/-- Modelled from the spec: §4.4 `createSession(userId, ip, userAgent)` —
issues the session with a fresh access/refresh pair, the refresh token
starting unconsumed. Returns (store, sessionId, accessToken, refreshToken). -/
def createSession (s : Store) (userId : Nat) (ip : String) (ua : Option String)
    (now sTtl aTtl rTtl : Nat) : Store × Nat × Nat × Nat :=
  ({ sessions :=
       { id := s.nextId, userId := userId, userAgent := ua, ip := ip,
         invalidatedMs := none, createdMs := now, expiresMs := now + sTtl } :: s.sessions,
     tokens :=
       { id := s.nextId + 1, kind := TokenKind.access, sessionId := s.nextId,
         createdMs := now, expiresMs := now + aTtl,
         consumedMs := none, invalidatedMs := none } ::
       { id := s.nextId + 2, kind := TokenKind.refresh, sessionId := s.nextId,
         createdMs := now, expiresMs := now + rTtl,
         consumedMs := none, invalidatedMs := none } :: s.tokens,
     nextId := s.nextId + 3 }, s.nextId, s.nextId + 1, s.nextId + 2)

/-- Overwrites every token's `consumedMs` by an arbitrary function (used to
state that access-token validation is independent of `consumedMs`). -/
def setConsumed (f : TokenRec → Option Nat) (s : Store) : Store :=
  { s with tokens := s.tokens.map (fun x => { x with consumedMs := f x }) }

/-- Concrete session fixture for witnesses. -/
def sess0 : SessionRec :=
  { id := 1, userId := 10, userAgent := none, ip := "127.0.0.1",
    invalidatedMs := none, createdMs := 0, expiresMs := 1000 }

/-- Fixture: a live access token of session 1. -/
def tAccess0 : TokenRec :=
  { id := 2, kind := TokenKind.access, sessionId := 1, createdMs := 0,
    expiresMs := 1000, consumedMs := none, invalidatedMs := none }

/-- Fixture: an already-consumed refresh token of session 1. -/
def tReused0 : TokenRec :=
  { id := 3, kind := TokenKind.refresh, sessionId := 1, createdMs := 0,
    expiresMs := 1000, consumedMs := some 5, invalidatedMs := none }

/-- Fixture: a live, unconsumed refresh token of session 1. -/
def tFresh0 : TokenRec :=
  { id := 3, kind := TokenKind.refresh, sessionId := 1, createdMs := 0,
    expiresMs := 1000, consumedMs := none, invalidatedMs := none }

/-- Fixture store whose refresh token was already consumed. -/
def store0 : Store :=
  { sessions := [sess0], tokens := [tAccess0, tReused0], nextId := 4 }

/-- Fixture store whose refresh token is still unconsumed. -/
def store1 : Store :=
  { sessions := [sess0], tokens := [tAccess0, tFresh0], nextId := 4 }

/-!
Part 3: theorems.
-/

theorem find?_map_pres {α : Type} (p : α → Bool) (f : α → α) (l : List α)
    (hp : ∀ x, p (f x) = p x) :
    (l.map f).find? p = (l.find? p).map f := by
  rw [List.find?_map]
  have h : (p ∘ f) = p := funext hp
  rw [h]

theorem findSession_invalidate (s : Store) (sid now : Nat) (sess : SessionRec)
    (h : findSession s sid = some sess) :
    findSession (invalidateSession s sid now) sid
      = some { sess with invalidatedMs := some now } := by
  have h' : List.find? (fun x => x.id == sid) s.sessions = some sess := by
    simpa [findSession] using h
  have hsid : (sess.id == sid) = true := by simpa using List.find?_some h'
  simp only [findSession, invalidateSession] at h ⊢
  rw [find?_map_pres _ _ _ (fun x => by by_cases hx : (x.id == sid) = true <;> simp [hx])]
  rw [h]
  have heq : sess.id = sid := by simpa using hsid
  simp [heq]

theorem find?_markConsumed (l : List TokenRec) (tok now : Nat) (t : TokenRec)
    (h : l.find? (fun x => x.id == tok) = some t) :
    (markConsumed l tok now).find? (fun x => x.id == tok)
      = some { t with consumedMs := some now } := by
  have hid : (t.id == tok) = true := by simpa using List.find?_some h
  simp only [markConsumed]
  rw [find?_map_pres _ _ _ (fun x => by by_cases hx : (x.id == tok) = true <;> simp [hx])]
  rw [h]
  have heq : t.id = tok := by simpa using hid
  simp [heq]

theorem hasRole_ok_of_enc_eq (ctx : ReqInfo) (role : RoleArg)
    (h : RoleArg.enc role = ReqInfo.enc ctx) : ∃ b, hasRole ctx role = .ok b := by
  cases ctx with
  | strings c a r ip d u =>
    cases role with
    | rname s => exact ⟨_, rfl⟩
    | rflag m => simp [RoleArg.enc, ReqInfo.enc] at h
  | bitwise c a r ip d u =>
    cases role with
    | rname s => simp [RoleArg.enc, ReqInfo.enc] at h
    | rflag m => exact ⟨_, rfl⟩

/-- C4: the `t` discriminant of a `ReqInfo` value fully determines the
encoding of every role/scope field present in it — `t = 0` makes the client
roles, user roles and oauth scopes all string-set encoded, `t = 1` makes them
all bitmask encoded, and no value mixes the two encodings. -/
theorem reqInfo_encoding_uniform (ri : ReqInfo) :
    (ri.t = 0 ∧ ri.roleEncodings.all (fun e => e == Encoding.stringSet) = true) ∨
    (ri.t = 1 ∧ ri.roleEncodings.all (fun e => e == Encoding.bitmask) = true) := by
  cases ri with
  | strings c a r ip d u =>
    left
    refine ⟨rfl, ?_⟩
    cases u with
    | none => rfl
    | some ui =>
      obtain ⟨sid, uid, ur, us⟩ := ui
      cases us with
      | none => rfl
      | some us' => cases us' <;> rfl
  | bitwise c a r ip d u =>
    right
    refine ⟨rfl, ?_⟩
    cases u with
    | none => rfl
    | some u' =>
      cases u' with
      | none => rfl
      | some ui =>
        obtain ⟨sid, uid, ur, us⟩ := ui
        cases us with
        | none => rfl
        | some us' => cases us' <;> rfl

/-- C5: the role-comparison operations `hasRole`, `hasAnyRole`, `hasAllRoles`
fail with `EncodingMismatch` whenever the context's encoding differs from the
encoding of (any element of) the role argument, and only succeed when the
encodings agree — they never coerce one encoding into the other. -/
theorem role_ops_encoding_mismatch (ctx : ReqInfo) :
    (∀ role : RoleArg, RoleArg.enc role ≠ ReqInfo.enc ctx →
      hasRole ctx role = .error RoleErr.EncodingMismatch) ∧
    (∀ (role : RoleArg) (b : Bool), hasRole ctx role = .ok b →
      RoleArg.enc role = ReqInfo.enc ctx) ∧
    (∀ roles : List RoleArg, (∃ role ∈ roles, RoleArg.enc role ≠ ReqInfo.enc ctx) →
      hasAnyRole ctx roles = .error RoleErr.EncodingMismatch ∧
      hasAllRoles ctx roles = .error RoleErr.EncodingMismatch) := by
  have h1 : ∀ role : RoleArg, RoleArg.enc role ≠ ReqInfo.enc ctx →
      hasRole ctx role = .error RoleErr.EncodingMismatch := by
    intro role hne
    cases ctx <;> cases role <;> first | rfl | exact absurd rfl hne
  have h2 : ∀ (role : RoleArg) (b : Bool), hasRole ctx role = .ok b →
      RoleArg.enc role = ReqInfo.enc ctx := by
    intro role b hok
    cases ctx <;> cases role <;> first | rfl | simp [hasRole] at hok
  refine ⟨h1, h2, ?_⟩
  intro roles hex
  induction roles with
  | nil =>
    rcases hex with ⟨role, hmem, _⟩
    cases hmem
  | cons head rest ih =>
    rcases hex with ⟨role, hmem, hne⟩
    rcases List.mem_cons.mp hmem with heq | hmem'
    · subst heq
      exact ⟨by simp [hasAnyRole, h1 role hne], by simp [hasAllRoles, h1 role hne]⟩
    · by_cases hh : RoleArg.enc head = ReqInfo.enc ctx
      · obtain ⟨b, hb⟩ := hasRole_ok_of_enc_eq ctx head hh
        have ih' := ih ⟨role, hmem', hne⟩
        exact ⟨by simp [hasAnyRole, hb, ih'.1], by simp [hasAllRoles, hb, ih'.2]⟩
      · exact ⟨by simp [hasAnyRole, h1 head hh], by simp [hasAllRoles, h1 head hh]⟩

/-- Witness for C5 at a concrete bitmask context and string role argument. -/
theorem role_ops_encoding_mismatch_witness :
    hasRole (ReqInfo.bitwise "c" true 5 "ip" none none) (RoleArg.rname "a")
      = Except.error RoleErr.EncodingMismatch ∧
    hasAnyRole (ReqInfo.bitwise "c" true 5 "ip" none none) [RoleArg.rname "a"]
      = Except.error RoleErr.EncodingMismatch := by
  have h := role_ops_encoding_mismatch (ReqInfo.bitwise "c" true 5 "ip" none none)
  refine ⟨h.1 (RoleArg.rname "a") (by decide), ?_⟩
  exact (h.2.2 [RoleArg.rname "a"] ⟨RoleArg.rname "a", by simp, by decide⟩).1

/-- C3: `consumeVerificationCode` succeeds iff `now < expiresMs`, `consumedMs`
is null and `invalidatedMs` is null; success sets `consumedMs := now`, so a
second consume of the resulting code always fails. -/
theorem consumeVerificationCode_spec (now : Nat) (c : VerificationCode) :
    ((∃ c', consumeVerificationCode now c = .ok c') ↔
      (now < c.expiresMs ∧ c.consumedMs = none ∧ c.invalidatedMs = none)) ∧
    (∀ c', consumeVerificationCode now c = .ok c' →
      c' = { c with consumedMs := some now } ∧
      ∀ now', consumeVerificationCode now' c' = .error ConsumeErr.ExpiredOrInvalid) := by
  constructor
  · constructor
    · rintro ⟨c', hc⟩
      by_cases h : usableCode now c = true
      · simpa [usableCode, Option.isNone_iff_eq_none, and_assoc] using h
      · simp [consumeVerificationCode, h] at hc
    · intro hcond
      have h : usableCode now c = true := by
        simp [usableCode, Option.isNone_iff_eq_none, and_assoc]
        exact ⟨hcond.1, hcond.2.1, hcond.2.2⟩
      exact ⟨{ c with consumedMs := some now }, by simp [consumeVerificationCode, h]⟩
  · intro c' hc
    have h : usableCode now c = true := by
      by_contra h
      simp [consumeVerificationCode, h] at hc
    have hc' : c' = { c with consumedMs := some now } := by
      have h2 := hc
      simp [consumeVerificationCode, h] at h2
      exact h2.symm
    subst hc'
    refine ⟨rfl, fun now' => ?_⟩
    simp [consumeVerificationCode, usableCode]

/-- Witness for C3: consuming a fresh code at `now = 5` succeeds, and consuming
the resulting code again (at `now = 7`) fails. -/
theorem consumeVerificationCode_spec_witness :
    consumeVerificationCode 7
      { codeSha256 := 1, type := CodeType.login, email := "a@x.com",
        userGeneratedToken := none, createdMs := 0, expiresMs := 10,
        consumedMs := some 5, invalidatedMs := none }
      = Except.error ConsumeErr.ExpiredOrInvalid :=
  ((consumeVerificationCode_spec 5
      { codeSha256 := 1, type := CodeType.login, email := "a@x.com",
        userGeneratedToken := none, createdMs := 0, expiresMs := 10,
        consumedMs := none, invalidatedMs := none }).2
    { codeSha256 := 1, type := CodeType.login, email := "a@x.com",
      userGeneratedToken := none, createdMs := 0, expiresMs := 10,
      consumedMs := some 5, invalidatedMs := none } rfl).2 7

/-- C8 (counterexample to the claim as stated): in `Auth.Db.User` the
`bannedMs` and `deletedMs` attributes are declared as required (non-optional)
plain `number` fields that do not admit `null`, so they are not "optional"
as the claim asserts. -/
theorem dbUser_banned_required_field :
    lookupField "bannedMs" DbUserTy = some (false, Ty.num) ∧
    admitsNull Ty.num = false ∧
    lookupField "deletedMs" DbUserTy = some (false, Ty.num) :=
  ⟨rfl, rfl, rfl⟩

/-- C8 (amended): in `Auth.Db.User`, `bannedMs` and `deletedMs` are required,
non-nullable `number` attributes (`0` meaning never banned/deleted) while
`passwordBcrypt` is nullable (`string | null`, null = no password set); and in
the spec-modelled authentication, a user with nonzero `bannedMs` or
`deletedMs` fails with the uniform error regardless of credential validity. -/
theorem dbUser_fields_and_ban_rejection :
    (lookupField "bannedMs" DbUserTy = some (false, Ty.num) ∧
     lookupField "deletedMs" DbUserTy = some (false, Ty.num) ∧
     lookupField "passwordBcrypt" DbUserTy = some (false, Ty.union [Ty.str, Ty.nullT])) ∧
    ∀ (u : DbUser) (candidate : String),
      u.bannedMs ≠ 0 ∨ u.deletedMs ≠ 0 →
      authenticate u candidate = Except.error AuthnErr.Unauthenticated := by
  refine ⟨⟨rfl, rfl, rfl⟩, ?_⟩
  intro u candidate h
  simp [authenticate, h]

/-- Witness for C8: a banned user with a *correct* password is still rejected. -/
theorem dbUser_fields_and_ban_rejection_witness :
    ((5 : Nat) ≠ 0 ∨ (0 : Nat) ≠ 0) ∧
    authenticate
      { name := "n", createdMs := 0, bannedMs := 5, deletedMs := 0,
        id := "u1", passwordBcrypt := some "pw", twoFa := false } "pw"
      = Except.error AuthnErr.Unauthenticated :=
  ⟨Or.inl (by decide),
   dbUser_fields_and_ban_rejection.2
     { name := "n", createdMs := 0, bannedMs := 5, deletedMs := 0,
       id := "u1", passwordBcrypt := some "pw", twoFa := false } "pw"
     (Or.inl (by decide))⟩

/-- C2: in the spec-modelled session/token manager, presenting an
already-consumed refresh token is token reuse — the call fails `Reused`, the
whole parent session is invalidated, and afterwards `validateAccessToken`
fails `Revoked` for every access token of that session; presenting an
unconsumed live refresh token marks it consumed and issues a fresh refresh
token (distinct from the presented one) in the same atomic step. -/
theorem refresh_rotation_and_reuse
    (s : Store) (tok now aTtl rTtl : Nat) (t : TokenRec) (sess : SessionRec)
    (hfind : findToken s tok = some t)
    (hkind : t.kind = TokenKind.refresh)
    (hsess : findSession s t.sessionId = some sess) :
    (t.consumedMs ≠ none →
      (refresh s tok now aTtl rTtl).2 = .error TokenErr.Reused ∧
      ∀ (tok' : Nat) (t' : TokenRec),
        findToken (refresh s tok now aTtl rTtl).1 tok' = some t' →
        t'.kind = TokenKind.access → t'.sessionId = t.sessionId →
        validateAccessToken (refresh s tok now aTtl rTtl).1 tok' now
          = .error TokenErr.Revoked) ∧
    (t.consumedMs = none → t.invalidatedMs = none → now < t.expiresMs →
      sess.invalidatedMs = none → (∀ x ∈ s.tokens, x.id < s.nextId) →
      (refresh s tok now aTtl rTtl).2 = .ok (s.nextId, s.nextId + 1) ∧
      s.nextId ≠ tok ∧ s.nextId + 1 ≠ tok ∧
      findToken (refresh s tok now aTtl rTtl).1 tok
        = some { t with consumedMs := some now } ∧
      findToken (refresh s tok now aTtl rTtl).1 (s.nextId + 1)
        = some { id := s.nextId + 1, kind := TokenKind.refresh, sessionId := t.sessionId,
                 createdMs := now, expiresMs := now + rTtl,
                 consumedMs := none, invalidatedMs := none }) := by
  have hfind' : List.find? (fun x => x.id == tok) s.tokens = some t := by
    simpa [findToken] using hfind
  have htid : t.id = tok := by simpa using List.find?_some hfind'
  have hmem : t ∈ s.tokens := List.mem_of_find?_eq_some hfind'
  constructor
  · intro hcons
    have hres : refresh s tok now aTtl rTtl
        = (invalidateSession s t.sessionId now, .error TokenErr.Reused) := by
      simp [refresh, hfind, hkind, hcons]
    refine ⟨by rw [hres], ?_⟩
    intro tok' t' hft' hk' hs'
    rw [hres] at hft' ⊢
    have hsess' : findSession (invalidateSession s t.sessionId now) t'.sessionId
        = some { sess with invalidatedMs := some now } := by
      rw [hs']
      exact findSession_invalidate s t.sessionId now sess hsess
    simp [validateAccessToken, hft', hk', hsess']
  · intro hcons hinv hexp hsinv hbound
    have hlt : tok < s.nextId := htid ▸ hbound t hmem
    have hnle : ¬ t.expiresMs ≤ now := Nat.not_le.mpr hexp
    have hres : refresh s tok now aTtl rTtl
        = ({ sessions := s.sessions,
             tokens :=
               { id := s.nextId, kind := TokenKind.access, sessionId := t.sessionId,
                 createdMs := now, expiresMs := now + aTtl,
                 consumedMs := none, invalidatedMs := none } ::
               { id := s.nextId + 1, kind := TokenKind.refresh, sessionId := t.sessionId,
                 createdMs := now, expiresMs := now + rTtl,
                 consumedMs := none, invalidatedMs := none } ::
               markConsumed s.tokens tok now,
             nextId := s.nextId + 2 },
           .ok (s.nextId, s.nextId + 1)) := by
      simp [refresh, hfind, hkind, hcons, hinv, hnle, hsess, hsinv]
    refine ⟨by rw [hres], by omega, by omega, ?_, ?_⟩
    · rw [hres]
      have h1 : (s.nextId == tok) = false := by simp; omega
      have h2 : (s.nextId + 1 == tok) = false := by simp; omega
      simp only [findToken, List.find?_cons, h1, h2]
      exact find?_markConsumed s.tokens tok now t hfind'
    · rw [hres]
      have h1 : (s.nextId == s.nextId + 1) = false := by simp
      have h2 : (s.nextId + 1 == s.nextId + 1) = true := by simp
      simp [findToken, List.find?_cons, h1, h2]

/-- Witness for C2: in `store0` the refresh token `3` was already consumed, so
refreshing fails `Reused` and the session's access token `2` then validates
`Revoked`; in `store1` the same token is unconsumed and rotation succeeds,
issuing the fresh pair `(4, 5)`. -/
theorem refresh_rotation_and_reuse_witness :
    (refresh store0 3 7 100 200).2 = Except.error TokenErr.Reused ∧
    validateAccessToken (refresh store0 3 7 100 200).1 2 7
      = Except.error TokenErr.Revoked ∧
    (refresh store1 3 7 100 200).2 = Except.ok (4, 5) := by
  have h0 := refresh_rotation_and_reuse store0 3 7 100 200 tReused0 sess0 rfl rfl rfl
  have h1 := refresh_rotation_and_reuse store1 3 7 100 200 tFresh0 sess0 rfl rfl rfl
  have hr := h0.1 (by decide)
  refine ⟨hr.1, hr.2 2 tAccess0 rfl rfl rfl, ?_⟩
  have hb : ∀ x ∈ store1.tokens, x.id < store1.nextId := by
    intro x hx
    simp [store1] at hx
    rcases hx with h | h <;> subst h <;> decide
  exact (h1.2 rfl rfl (by decide) rfl hb).1

/-- C7 (counterexample to the claim as stated): the `type` discriminant of
`Auth.Db.SessionToken` is declared as the union `"session" | "refresh"` —
`"access"` is not one of its values — and the nullable `consumedMs` field is
declared on the record for every token kind, not only for refresh tokens. -/
theorem sessionToken_discriminant_not_access :
    lookupField "type" DbSessionTokenTy
      = some (false, Ty.union [Ty.lit "session", Ty.lit "refresh"]) ∧
    (unionLits (Ty.union [Ty.lit "session", Ty.lit "refresh"])).contains "access" = false ∧
    (unionLits (Ty.union [Ty.lit "session", Ty.lit "refresh"])).contains "session" = true ∧
    lookupField "consumedMs" DbSessionTokenTy = some (false, Ty.union [Ty.num, Ty.nullT]) :=
  ⟨rfl, rfl, rfl, rfl⟩

/-- C7 (amended): every `Auth.Db.SessionToken`'s `type` discriminant takes
exactly the two values `"session"` and `"refresh"`; `consumedMs` is a
nullable field declared for all tokens, and in the spec-modelled manager an
access token's validity never depends on it: `validateAccessToken` is
invariant under arbitrarily rewriting every token's `consumedMs`. -/
theorem sessionToken_kind_and_consumed :
    (lookupField "type" DbSessionTokenTy
       = some (false, Ty.union [Ty.lit "session", Ty.lit "refresh"]) ∧
     unionLits (Ty.union [Ty.lit "session", Ty.lit "refresh"]) = ["session", "refresh"] ∧
     lookupField "consumedMs" DbSessionTokenTy
       = some (false, Ty.union [Ty.num, Ty.nullT])) ∧
    ∀ (f : TokenRec → Option Nat) (s : Store) (tok now : Nat),
      validateAccessToken (setConsumed f s) tok now = validateAccessToken s tok now := by
  refine ⟨⟨rfl, rfl, rfl⟩, ?_⟩
  intro f s tok now
  have hmap : findToken (setConsumed f s) tok
      = (findToken s tok).map (fun x => { x with consumedMs := f x }) := by
    simp only [findToken, setConsumed]
    exact find?_map_pres _ _ _ (fun x => rfl)
  cases hft : findToken s tok with
  | none => simp [validateAccessToken, hmap, hft]
  | some t =>
    simp only [validateAccessToken, hmap, hft, Option.map_some']
    rfl

/-- C1 (counterexample to the claim as stated): the declared response of
`POST /sessions/login/email` is `{ data: null }` — its `data` member is the
null type, which is not a `StepResponse` (it is not even an object and has
no `step`/`code`/`state` fields) nor a `Session`. -/
theorem login_email_returns_null_data :
    (lookupResponse "POST /sessions/login/email").map (fun d => lookupField "data" d)
      = some (some (false, Ty.nullT)) ∧
    hasField "step" Ty.nullT = false ∧
    hasField "state" Ty.nullT = false ∧
    hasField "token" Ty.nullT = false ∧
    hasField "step" AuthnStepResponseTy = true ∧
    hasField "token" AuthnSessionTy = true :=
  ⟨rfl, rfl, rfl, rfl, rfl, rfl⟩

/-- C1 (amended): of the four login-flow endpoints, the three factor
endpoints (`password`, `code`, `totp`) respond with data of exactly the
two-shape union `Authn.StepResponse | Authn.Session`, while Step 1 (the
`email` endpoint) responds `{ data: null }`. -/
theorem login_flow_response_shapes :
    lookupResponse "POST /sessions/login/password"
      = some (Ty.obj [("data", false, Ty.union [AuthnStepResponseTy, AuthnSessionTy])]) ∧
    lookupResponse "POST /sessions/login/code"
      = some (Ty.obj [("data", false, Ty.union [AuthnStepResponseTy, AuthnSessionTy])]) ∧
    lookupResponse "POST /sessions/login/totp"
      = some (Ty.obj [("data", false, Ty.union [AuthnStepResponseTy, AuthnSessionTy])]) ∧
    lookupResponse "POST /sessions/login/email"
      = some (Ty.obj [("data", false, Ty.nullT)]) :=
  ⟨rfl, rfl, rfl, rfl⟩

/-- C9: the signup endpoint `POST /users` responds directly with an
`Authn.Session` (`t: "session"` with `token` and `refresh`), never a
`StepResponse` — its data shape is the bare session object (no union) and
contains no `step`/`state` fields. -/
theorem post_users_returns_session :
    lookupResponse "POST /users" = some (Ty.obj [("data", false, AuthnSessionTy)]) ∧
    AuthnSessionTy = Ty.obj [("t", false, Ty.lit "session"),
      ("token", false, Ty.str), ("refresh", false, Ty.str)] ∧
    hasField "step" (Ty.obj [("data", false, AuthnSessionTy)]) = false ∧
    hasField "state" (Ty.obj [("data", false, AuthnSessionTy)]) = false :=
  ⟨rfl, rfl, rfl, rfl⟩

/-- C6: no response shape of the accounts API contains a `secretBcrypt` or
`secretHash` field, and a plaintext `secret` field appears in exactly the two
endpoints that create or rotate a client secret. -/
theorem secret_exposure_exact :
    responses.all (fun p => !hasField "secretBcrypt" p.2 && !hasField "secretHash" p.2)
      = true ∧
    (responses.filter (fun p => hasField "secret" p.2)).map (fun p => p.1)
      = ["POST /organizations/:id/clients",
         "POST /organizations/:id/clients/:id/refresh-secret"] :=
  ⟨rfl, rfl⟩

/-- C10: both `ReqInfo` variants declare the user sub-object `u` as optional,
but only `ReqInfoBitwise` additionally admits an explicit `null` for `u`
(`u?: null | { ... }`); in `ReqInfoString` the declared type of `u` does not
admit `null`. -/
theorem reqInfo_user_null_asymmetry :
    lookupField "u" ReqInfoBitwiseTy
      = some (true, Ty.union [Ty.nullT, ReqInfoBitwiseUserTy]) ∧
    admitsNull (Ty.union [Ty.nullT, ReqInfoBitwiseUserTy]) = true ∧
    lookupField "u" ReqInfoStringTy = some (true, ReqInfoStringUserTy) ∧
    admitsNull ReqInfoStringUserTy = false :=
  ⟨rfl, rfl, rfl, rfl⟩
